import Mathlib

/-!
# Verification of the `cowboy8625/calculator` interactive calculator

Shallow embedding of `src/main.cpp`: a lexer over a character list with a
cursor, a recursive-descent parser (`expr` / `term` / `factor`) building an
AST, and the AST traversals `evaluate`, `print_infix`, `print_tree`, plus
the `main` read loop.

Modelling conventions:
* `std::string` becomes `List Char`; the cursor `pos` is a `Nat` index.
* C++ exceptions become `Except CalcError`; each `CalcError` constructor
  corresponds to exactly one `throw` site in the source and is instrumented
  with the program state available at that site (the offending character and
  cursor position, or the expected/found token tags).  The `what()` message
  of the thrown exception is recovered by `CalcError.message`.
* `double` values are modelled as exact rationals `ℚ`; every numeric value
  exercised by a theorem below is a small integer or a short decimal, where
  IEEE-754 double arithmetic is exact (respectively where only the identity
  of the converted substring matters), so the rational model is faithful on
  those inputs.  Default `std::cout` formatting of a `double` prints an
  integral value without a decimal point, which `formatValue` reproduces;
  non-integral formatting is not exercised by any theorem.
* The mutually recursive parsing routines are bounded by explicit fuel
  (`CalcError.noFuel` marks fuel exhaustion, a model artifact that no
  theorem's run reaches); everything is a computable structural recursion so
  concrete runs reduce inside `decide` / `rfl`.
-/

/- Batteries marks the rational-arithmetic primitives `@[irreducible]`, which
blocks `decide` from evaluating concrete runs; restore the default
reducibility for this development (they are ordinary computable functions). -/
attribute [local semireducible] Rat.add Rat.mul Rat.inv

instance {ε α : Type} [DecidableEq ε] [DecidableEq α] : DecidableEq (Except ε α) := fun x y =>
  match x, y with
  | .ok a, .ok b => if h : a = b then .isTrue (by rw [h]) else .isFalse (by simp [h])
  | .error a, .error b => if h : a = b then .isTrue (by rw [h]) else .isFalse (by simp [h])
  | .ok _, .error _ => .isFalse (by simp)
  | .error _, .ok _ => .isFalse (by simp)

/-- `enum class TokenType { NUMBER, PLUS, MUL, LPAREN, RPAREN, END }` (main.cpp:7). -/
inductive TokenType where
  | NUMBER
  | PLUS
  | MUL
  | LPAREN
  | RPAREN
  | END
deriving DecidableEq, Repr

/-- `struct Token { TokenType type; double value; }` (main.cpp:9-14).
The C++ constructor defaults `value` to `0`; call sites below pass `0`
explicitly for the non-number tokens. -/
structure Token where
  type : TokenType
  value : ℚ
deriving DecidableEq, Repr

/-- The error channel: one constructor per `throw` site of main.cpp (and one
fuel-exhaustion artifact of the bounded model).  Each constructor carries the
program state at its throw site. -/
inductive CalcError where
  /-- `throw std::runtime_error("Invalid character in input")` (main.cpp:47),
  carrying the offending character and its cursor position. -/
  | invalidChar (c : Char) (pos : Nat)
  /-- `std::stod` throwing `std::invalid_argument("stod")` when no conversion
  can be performed (main.cpp:60). -/
  | stodFailure
  /-- `throw std::runtime_error("Unexpected token")` in `Parser::consume`
  (main.cpp:159), carrying the expected and found token tags. -/
  | unexpectedToken (expected found : TokenType)
  /-- `throw std::runtime_error("Expected number or parentheses")` in
  `Parser::factor` (main.cpp:199), carrying the found token tag. -/
  | expectedFactor (found : TokenType)
  /-- `throw std::runtime_error("Unknown operator")` in
  `BinaryOpNode::evaluate` (main.cpp:111). -/
  | unknownOperator
  /-- Fuel exhaustion: a bounded-model artifact, not a throw site of the
  source; unreachable in every run appearing in a theorem below. -/
  | noFuel
deriving DecidableEq, Repr

/-- The `what()` message of the C++ exception each error models. -/
def CalcError.message : CalcError → String
  | .invalidChar _ _ => "Invalid character in input"
  | .stodFailure => "stod"
  | .unexpectedToken _ _ => "Unexpected token"
  | .expectedFactor _ => "Expected number or parentheses"
  | .unknownOperator => "Unknown operator"
  | .noFuel => "Out of fuel (model artifact)"

/-- `std::isspace` restricted to the ASCII whitespace characters
`' '`, `'\t'`, `'\n'`, `'\v'`, `'\f'`, `'\r'` (the inputs are ASCII). -/
def cIsSpace (c : Char) : Bool :=
  c = ' ' || c = '\t' || c = '\n' || c = Char.ofNat 11 || c = Char.ofNat 12 || c = '\r'

/-- `class Lexer` state: the input line and the cursor `pos` (main.cpp:51-52). -/
structure Lexer where
  input : List Char
  pos : Nat
deriving DecidableEq, Repr

/-- The whitespace-skipping loop of `Lexer::getNextToken` (main.cpp:21-23),
bounded by fuel so that it reduces by `rfl`; `skipWhitespace` instantiates the
fuel with the exact number of remaining characters. -/
def skipWsFuel : Nat → List Char → Nat → Nat
  | 0, _, pos => pos
  | fuel + 1, input, pos =>
    if h : pos < input.length then
      if cIsSpace (input.get ⟨pos, h⟩) then skipWsFuel fuel input (pos + 1) else pos
    else pos

/-- `while (pos < input.size() && std::isspace(input[pos])) ++pos;`
(main.cpp:21-23): the cursor after skipping leading whitespace. -/
def skipWhitespace (input : List Char) (pos : Nat) : Nat :=
  skipWsFuel (input.length - pos) input pos

/-- The digit-and-dot scanning loop of `Lexer::number` (main.cpp:56-59),
fuel-bounded like `skipWsFuel`. -/
def scanNumFuel : Nat → List Char → Nat → Nat
  | 0, _, pos => pos
  | fuel + 1, input, pos =>
    if h : pos < input.length then
      if (input.get ⟨pos, h⟩).isDigit || input.get ⟨pos, h⟩ = '.' then
        scanNumFuel fuel input (pos + 1)
      else pos
    else pos

/-- `while (pos < input.size() && (std::isdigit(input[pos]) || input[pos] == '.')) ++pos;`
(main.cpp:56-59): the cursor after the maximal run of digits and dots. -/
def scanNumber (input : List Char) (pos : Nat) : Nat :=
  scanNumFuel (input.length - pos) input pos

/-- Value of a digit string, most significant first. -/
def digitsToNat (s : List Char) : Nat :=
  s.foldl (fun acc c => acc * 10 + (c.toNat - 48)) 0

/-- Models `std::stod` (main.cpp:60) on the scanned substring.  The substring
consists only of decimal digits and `'.'` and starts with a digit (the digit
branch of `getNextToken` guards the call), so no sign, leading whitespace, or
exponent can occur: `stod` converts the longest prefix of the form
`digits [. digits]` — stopping at a second `'.'` — and fails (throws
`std::invalid_argument`) only when that prefix is empty or is a lone `'.'`.
IEEE rounding of the decimal literal is abstracted to the exact rational. -/
def stod (s : List Char) : Option ℚ :=
  let intPart := s.takeWhile Char.isDigit
  let rest := s.drop intPart.length
  match rest with
  | '.' :: rest2 =>
    let fracPart := rest2.takeWhile Char.isDigit
    if intPart.isEmpty && fracPart.isEmpty then none
    else some ((digitsToNat intPart : ℚ) + (digitsToNat fracPart : ℚ) / (10 ^ fracPart.length : ℚ))
  | _ => if intPart.isEmpty then none else some (digitsToNat intPart : ℚ)

/-- `Lexer::number` (main.cpp:54-62): scan the maximal digit/dot run starting
at the (post-whitespace) cursor, convert the substring with `stod`, and return
a `NUMBER` token together with the advanced lexer. -/
def Lexer.number (input : List Char) (start : Nat) : Except CalcError (Token × Lexer) :=
  let e := scanNumber input start
  match stod ((input.drop start).take (e - start)) with
  | some v => .ok (⟨TokenType.NUMBER, v⟩, ⟨input, e⟩)
  | none => .error .stodFailure

/-- `Lexer::getNextToken` (main.cpp:20-48): skip whitespace, then classify the
next character; at end of input return `END` without advancing further. -/
def getNextToken (l : Lexer) : Except CalcError (Token × Lexer) :=
  let p := skipWhitespace l.input l.pos
  if hp : p < l.input.length then
    let c := l.input.get ⟨p, hp⟩
    if c.isDigit then
      Lexer.number l.input p
    else if c = '+' then .ok (⟨TokenType.PLUS, 0⟩, ⟨l.input, p + 1⟩)
    else if c = '*' then .ok (⟨TokenType.MUL, 0⟩, ⟨l.input, p + 1⟩)
    else if c = '(' then .ok (⟨TokenType.LPAREN, 0⟩, ⟨l.input, p + 1⟩)
    else if c = ')' then .ok (⟨TokenType.RPAREN, 0⟩, ⟨l.input, p + 1⟩)
    else .error (.invalidChar c p)
  else .ok (⟨TokenType.END, 0⟩, ⟨l.input, p⟩)

/-- The AST (main.cpp:65-143): the closed variant set behind the virtual
`ASTNode` hierarchy — `NumberNode(value)` leaves and
`BinaryOpNode(op, left, right)` internal nodes. -/
inductive ASTNode where
  | NumberNode (value : ℚ)
  | BinaryOpNode (op : TokenType) (left right : ASTNode)
deriving DecidableEq, Repr

/-- Default `std::cout` rendering of a `double`: an integral value prints with
no decimal point (`2` → `"2"`), which is the only case any theorem below
exercises; non-integral values are approximated by the `num/den` rendering. -/
def formatValue (q : ℚ) : String :=
  if q.den = 1 then toString q.num else toString q

/-- `evaluate()` (main.cpp:69,80,105-112): a leaf returns its value; a binary
node combines the children's results with `+` or `*`, and any other operator
tag raises `runtime_error("Unknown operator")`. -/
def evaluate : ASTNode → Except CalcError ℚ
  | .NumberNode v => .ok v
  | .BinaryOpNode op l r =>
    if op = TokenType.PLUS then
      match evaluate l, evaluate r with
      | .ok a, .ok b => .ok (a + b)
      | .error e, _ => .error e
      | _, .error e => .error e
    else if op = TokenType.MUL then
      match evaluate l, evaluate r with
      | .ok a, .ok b => .ok (a * b)
      | .error e, _ => .error e
      | _, .error e => .error e
    else .error .unknownOperator

/-- `print_infix()` (main.cpp:71,82,114-124) as the string written to
`std::cout`: leaves print their value, binary nodes print
`"(" left " + "/" * " right ")"` (an op tag other than `PLUS`/`MUL` prints no
operator symbol, as in the source's if/else-if chain). -/
def printInfix : ASTNode → String
  | .NumberNode v => formatValue v
  | .BinaryOpNode op l r =>
    "(" ++ printInfix l ++
      (if op = TokenType.PLUS then " + " else if op = TokenType.MUL then " * " else "") ++
      printInfix r ++ ")"

/-- `print_indent` (main.cpp:92-96,138-142): two spaces per indent level. -/
def printIndent (indent : Nat) : String :=
  String.join (List.replicate indent "  ")

/-- `print_tree(indent)` (main.cpp:73,84-87,126-131) as the string written to
`std::cout`: one line per node, children at `indent + 1`. -/
def printTree : ASTNode → Nat → String
  | .NumberNode v, indent => printIndent indent ++ "Number(" ++ formatValue v ++ ")\n"
  | .BinaryOpNode op l r, indent =>
    printIndent indent ++ "BinaryOp(" ++ (if op = TokenType.PLUS then "+" else "*") ++ ")\n"
      ++ printTree l (indent + 1) ++ printTree r (indent + 1)

/-- `class Parser` state (main.cpp:152-153): the lexer and the single token of
lookahead. -/
structure Parser where
  lexer : Lexer
  current_token : Token
deriving DecidableEq, Repr

/-- The `Parser` constructor (main.cpp:147): store the lexer and prime the
lookahead with one `getNextToken()` call (whose failure propagates). -/
def Parser.init (l : Lexer) : Except CalcError Parser := do
  let (t, l2) ← getNextToken l
  .ok ⟨l2, t⟩

/-- `Parser::consume(expected)` (main.cpp:155-161): if the lookahead's tag is
`expected`, refill the lookahead from the lexer; otherwise raise
`runtime_error("Unexpected token")` recording expected and found tags. -/
def consume (p : Parser) (expected : TokenType) : Except CalcError Parser :=
  if p.current_token.type = expected then do
    let (t, l2) ← getNextToken p.lexer
    .ok ⟨l2, t⟩
  else .error (.unexpectedToken expected p.current_token.type)

/-- The mutually recursive parsing routines of main.cpp:163-200, combined into
one fuel-bounded function.  `Mode.expr`, `Mode.term`, `Mode.factor` are the
entry points of `Parser::expr`, `Parser::term`, `Parser::factor`;
`Mode.exprLoop acc` / `Mode.termLoop acc` are the states of the `while`-loops
in `expr` / `term`, carrying the left-associatively accumulated node. -/
inductive Mode where
  | expr
  | exprLoop (acc : ASTNode)
  | term
  | termLoop (acc : ASTNode)
  | factor
deriving DecidableEq, Repr

/-- One step relation covering `Parser::expr` / `term` / `factor`
(main.cpp:163-200).  Fuel bounds the call depth; `CalcError.noFuel` never
occurs with the fuel used by `runParse` below. -/
def parseStep : Nat → Mode → Parser → Except CalcError (ASTNode × Parser)
  | 0, _, _ => .error .noFuel
  | fuel + 1, .expr, p =>
    match parseStep fuel .term p with
    | .error e => .error e
    | .ok (node, p) => parseStep fuel (.exprLoop node) p
  | fuel + 1, .exprLoop node, p =>
    if p.current_token.type = TokenType.PLUS then
      let op := p.current_token.type
      match consume p TokenType.PLUS with
      | .error e => .error e
      | .ok p =>
        match parseStep fuel .term p with
        | .error e => .error e
        | .ok (rhs, p) => parseStep fuel (.exprLoop (.BinaryOpNode op node rhs)) p
    else .ok (node, p)
  | fuel + 1, .term, p =>
    match parseStep fuel .factor p with
    | .error e => .error e
    | .ok (node, p) => parseStep fuel (.termLoop node) p
  | fuel + 1, .termLoop node, p =>
    if p.current_token.type = TokenType.MUL then
      let op := p.current_token.type
      match consume p TokenType.MUL with
      | .error e => .error e
      | .ok p =>
        match parseStep fuel .factor p with
        | .error e => .error e
        | .ok (rhs, p) => parseStep fuel (.termLoop (.BinaryOpNode op node rhs)) p
    else .ok (node, p)
  | fuel + 1, .factor, p =>
    if p.current_token.type = TokenType.NUMBER then
      let value := p.current_token.value
      match consume p TokenType.NUMBER with
      | .error e => .error e
      | .ok p => .ok (.NumberNode value, p)
    else if p.current_token.type = TokenType.LPAREN then
      match consume p TokenType.LPAREN with
      | .error e => .error e
      | .ok p =>
        match parseStep fuel .expr p with
        | .error e => .error e
        | .ok (node, p) =>
          match consume p TokenType.RPAREN with
          | .error e => .error e
          | .ok p => .ok (node, p)
    else .error (.expectedFactor p.current_token.type)

/-- `Parser::parse()` (main.cpp:149): just `expr()`; the final parser state —
in particular any unconsumed trailing tokens — is discarded. -/
def Parser.parse (fuel : Nat) (p : Parser) : Except CalcError ASTNode := do
  let (node, _) ← parseStep fuel .expr p
  .ok node

/-- The per-line pipeline inside `main`'s `try` block (main.cpp:211-213):
`Lexer lexer(input); Parser parser(lexer); parser.parse()`. -/
def parseLine (input : List Char) (fuel : Nat) : Except CalcError ASTNode := do
  let p ← Parser.init ⟨input, 0⟩
  Parser.parse fuel p

/-- `parseLine` at a fuel that dominates the parse-call depth for the line
(the depth never exceeds three frames per character plus a constant). -/
def runParse (s : String) : Except CalcError ASTNode :=
  parseLine s.data (4 * s.data.length + 16)

/-- The AST produced for one input line by the `try` block, and the text the
line contributes to the output streams (main.cpp:210-226): on success the
three labelled blocks, on an exception the single `Error:` line.  (If
`evaluate` threw after the two print traversals, the partial output would
precede the error line.) -/
def lineOutput (input : String) : String :=
  match runParse input with
  | .error e => "Error: " ++ e.message ++ "\n"
  | .ok ast =>
    let pre := "Infix notation: " ++ printInfix ast ++ "\n" ++
      "Tree structure:\n" ++ printTree ast 0
    match evaluate ast with
    | .ok r => pre ++ "Result: " ++ formatValue r ++ "\n"
    | .error e => pre ++ "Error: " ++ e.message ++ "\n"

/-- `std::getline(std::cin, input)` (main.cpp:208): reads the next line; when
the stream is exhausted the read fails and leaves `input` empty — `main` never
checks for that failure. -/
def getline : List String → String × List String
  | [] => ("", [])
  | l :: ls => (l, ls)

/-- The state of `main`'s loop (main.cpp:203-227): the `is_running` guard
variable, the remaining stdin lines, and the transcript so far. -/
structure MainState where
  is_running : Bool
  stdinLines : List String
  output : List String
deriving DecidableEq, Repr

/-- One iteration of `while (is_running) { ... }` (main.cpp:205-227): print
the prompt, `getline`, run the pipeline in `try`/`catch`.  No statement of the
body assigns `is_running`, so the field is copied through unchanged. -/
def mainLoopBody (s : MainState) : MainState :=
  let (input, rest) := getline s.stdinLines
  ⟨s.is_running, rest, s.output ++ [">>> ", lineOutput input]⟩

/-- `n` iterations of the loop body (each one taken only when the guard
`is_running` holds, which the theorems below show is always the case). -/
def iterateMain : Nat → MainState → MainState
  | 0, s => s
  | n + 1, s => iterateMain n (mainLoopBody s)

/-- The invariant behind `BinaryOpNode::evaluate`'s totality: every binary
node's operator tag is `PLUS` or `MUL`. -/
def wfOps : ASTNode → Bool
  | .NumberNode _ => true
  | .BinaryOpNode op l r =>
    (op = TokenType.PLUS || op = TokenType.MUL) && wfOps l && wfOps r

theorem evaluate_ok_of_wfOps (a : ASTNode) (h : wfOps a = true) :
    ∃ v, evaluate a = .ok v := by
  induction a with
  | NumberNode v => exact ⟨v, rfl⟩
  | BinaryOpNode op l r ihl ihr =>
    simp only [wfOps, Bool.and_eq_true, Bool.or_eq_true, decide_eq_true_eq] at h
    obtain ⟨⟨hop, hl⟩, hr⟩ := h
    obtain ⟨vl, hvl⟩ := ihl hl
    obtain ⟨vr, hvr⟩ := ihr hr
    rcases hop with hop | hop <;> subst hop
    · exact ⟨vl + vr, by simp [evaluate, hvl, hvr]⟩
    · exact ⟨vl * vr, by simp [evaluate, hvl, hvr]⟩

/-- Accumulated-node well-formedness carried by a parsing mode. -/
def Mode.wf : Mode → Bool
  | .exprLoop a => wfOps a
  | .termLoop a => wfOps a
  | _ => true

theorem parseStep_wfOps (fuel : Nat) :
    ∀ (mode : Mode) (p : Parser) (res : ASTNode × Parser),
      parseStep fuel mode p = .ok res → mode.wf = true → wfOps res.1 = true := by
  induction fuel with
  | zero => intro mode p res h _; simp [parseStep] at h
  | succ fuel ih =>
    intro mode p res h hm
    cases mode with
    | expr =>
      simp only [parseStep] at h
      split at h
      · exact absurd h (by simp)
      · rename_i node p1 heq
        exact ih _ p1 res h (ih Mode.term p (node, p1) heq rfl)
    | term =>
      simp only [parseStep] at h
      split at h
      · exact absurd h (by simp)
      · rename_i node p1 heq
        exact ih _ p1 res h (ih Mode.factor p (node, p1) heq rfl)
    | exprLoop acc =>
      simp only [parseStep] at h
      split at h
      · rename_i hplus
        split at h
        · exact absurd h (by simp)
        · rename_i p1 hc
          split at h
          · exact absurd h (by simp)
          · rename_i rhs p2 hterm
            refine ih _ p2 res h ?_
            have hrhs := ih Mode.term p1 (rhs, p2) hterm rfl
            simp only [Mode.wf] at hm ⊢
            simp [wfOps, hplus, hm, hrhs]
      · rename_i hplus
        cases h
        exact hm
    | termLoop acc =>
      simp only [parseStep] at h
      split at h
      · rename_i hmul
        split at h
        · exact absurd h (by simp)
        · rename_i p1 hc
          split at h
          · exact absurd h (by simp)
          · rename_i rhs p2 hfac
            refine ih _ p2 res h ?_
            have hrhs := ih Mode.factor p1 (rhs, p2) hfac rfl
            simp only [Mode.wf] at hm ⊢
            simp [wfOps, hmul, hm, hrhs]
      · rename_i hmul
        cases h
        exact hm
    | factor =>
      simp only [parseStep] at h
      split at h
      · rename_i hnum
        split at h
        · exact absurd h (by simp)
        · rename_i p1 hc
          cases h
          rfl
      · rename_i hnum
        split at h
        · rename_i hlp
          split at h
          · exact absurd h (by simp)
          · rename_i p1 hc
            split at h
            · exact absurd h (by simp)
            · rename_i node p2 hexpr
              split at h
              · exact absurd h (by simp)
              · rename_i p3 hc2
                cases h
                exact ih Mode.expr p1 (node, p2) hexpr rfl
        · exact absurd h (by simp)

/-- C1: Multiplication binds tighter than addition: parsing `"2 + 3 * 4"`
yields `BinaryOp(+, Number(2), BinaryOp(*, Number(3), Number(4)))`, whose
`evaluate()` returns `14` and whose infix rendering is `"(2 + (3 * 4))"`;
parsing `"(2 + 3) * 4"` yields a tree whose `evaluate()` returns `20` and
whose infix rendering is `"((2 + 3) * 4)"`. -/
theorem mul_binds_tighter_than_add :
    runParse "2 + 3 * 4" = .ok (ASTNode.BinaryOpNode TokenType.PLUS (ASTNode.NumberNode 2)
      (ASTNode.BinaryOpNode TokenType.MUL (ASTNode.NumberNode 3) (ASTNode.NumberNode 4))) ∧
    evaluate (ASTNode.BinaryOpNode TokenType.PLUS (ASTNode.NumberNode 2)
      (ASTNode.BinaryOpNode TokenType.MUL (ASTNode.NumberNode 3) (ASTNode.NumberNode 4))) =
      .ok 14 ∧
    printInfix (ASTNode.BinaryOpNode TokenType.PLUS (ASTNode.NumberNode 2)
      (ASTNode.BinaryOpNode TokenType.MUL (ASTNode.NumberNode 3) (ASTNode.NumberNode 4))) =
      "(2 + (3 * 4))" ∧
    runParse "(2 + 3) * 4" = .ok (ASTNode.BinaryOpNode TokenType.MUL
      (ASTNode.BinaryOpNode TokenType.PLUS (ASTNode.NumberNode 2) (ASTNode.NumberNode 3))
      (ASTNode.NumberNode 4)) ∧
    evaluate (ASTNode.BinaryOpNode TokenType.MUL
      (ASTNode.BinaryOpNode TokenType.PLUS (ASTNode.NumberNode 2) (ASTNode.NumberNode 3))
      (ASTNode.NumberNode 4)) = .ok 20 ∧
    printInfix (ASTNode.BinaryOpNode TokenType.MUL
      (ASTNode.BinaryOpNode TokenType.PLUS (ASTNode.NumberNode 2) (ASTNode.NumberNode 3))
      (ASTNode.NumberNode 4)) = "((2 + 3) * 4)" := by
  decide

/-- C2: Repeated same-precedence operators group from the left: parsing
`"1 + 2 + 3"` yields `BinaryOp(+, BinaryOp(+, Number(1), Number(2)), Number(3))`,
whose `evaluate()` returns `6` and whose infix rendering is `"((1 + 2) + 3)"`. -/
theorem add_groups_from_left :
    runParse "1 + 2 + 3" = .ok (ASTNode.BinaryOpNode TokenType.PLUS
      (ASTNode.BinaryOpNode TokenType.PLUS (ASTNode.NumberNode 1) (ASTNode.NumberNode 2))
      (ASTNode.NumberNode 3)) ∧
    evaluate (ASTNode.BinaryOpNode TokenType.PLUS
      (ASTNode.BinaryOpNode TokenType.PLUS (ASTNode.NumberNode 1) (ASTNode.NumberNode 2))
      (ASTNode.NumberNode 3)) = .ok 6 ∧
    printInfix (ASTNode.BinaryOpNode TokenType.PLUS
      (ASTNode.BinaryOpNode TokenType.PLUS (ASTNode.NumberNode 1) (ASTNode.NumberNode 2))
      (ASTNode.NumberNode 3)) = "((1 + 2) + 3)" := by
  decide

/-- C3: Parsing the empty input line fails with `ExpectedFactor`: the first
token is `End` (obtained without advancing the cursor), `factor()` rejects it,
and no amount of fuel makes the empty line parse to an AST — at every fuel at
least the three frames `expr → term → factor` deep, the result is exactly the
`ExpectedFactor` error with found tag `End`. -/
theorem empty_input_expected_factor :
    runParse "" = .error (.expectedFactor TokenType.END) ∧
    getNextToken ⟨([] : List Char), 0⟩ = .ok (⟨TokenType.END, 0⟩, ⟨([] : List Char), 0⟩) ∧
    ∀ (fuel : Nat), parseLine [] (fuel + 3) = .error (.expectedFactor TokenType.END) := by
  refine ⟨by decide, by decide, ?_⟩
  intro fuel
  rfl

/-- C4: Parsing `"(1 + 2"` (unbalanced parenthesis) fails with an
`UnexpectedToken` error recording expected tag `RParen` and found tag `End`
(raised by `consume(RPAREN)` after the nested `expr()` returns). -/
theorem unbalanced_paren_unexpected_token :
    runParse "(1 + 2" = .error (.unexpectedToken TokenType.RPAREN TokenType.END) := by
  decide

/-- C5: Whenever the character at the cursor after whitespace skipping is not
a digit and not one of `+`, `*`, `(`, `)`, `getNextToken` fails with the
invalid-character error carrying that character and its position (the state at
the `throw std::runtime_error("Invalid character in input")` site). -/
theorem lexer_invalid_char_error (l : Lexer)
    (hp : skipWhitespace l.input l.pos < l.input.length)
    (hd : (l.input.get ⟨skipWhitespace l.input l.pos, hp⟩).isDigit = false)
    (h1 : l.input.get ⟨skipWhitespace l.input l.pos, hp⟩ ≠ '+')
    (h2 : l.input.get ⟨skipWhitespace l.input l.pos, hp⟩ ≠ '*')
    (h3 : l.input.get ⟨skipWhitespace l.input l.pos, hp⟩ ≠ '(')
    (h4 : l.input.get ⟨skipWhitespace l.input l.pos, hp⟩ ≠ ')') :
    getNextToken l = .error (.invalidChar (l.input.get ⟨skipWhitespace l.input l.pos, hp⟩)
      (skipWhitespace l.input l.pos)) := by
  simp only [getNextToken]
  rw [dif_pos hp]
  simp only [List.get_eq_getElem] at hd h1 h2 h3 h4 ⊢
  rw [if_neg (by simp [hd]), if_neg h1, if_neg h2, if_neg h3, if_neg h4]

theorem lexer_invalid_char_error_witness :
    skipWhitespace "3 - 2".data 1 < ("3 - 2".data).length ∧
    getNextToken ⟨"3 - 2".data, 1⟩ = .error (.invalidChar '-' 2) :=
  ⟨by decide, lexer_invalid_char_error ⟨"3 - 2".data, 1⟩ (by decide) (by decide)
    (by decide) (by decide) (by decide) (by decide)⟩

/-- C6 (the code violates the claim): on the input `"1.2.3"` the scanner
consumes the whole five-character digit/dot run, but `std::stod` converts only
the three-character prefix `"1.2"`; the lexer silently returns `Number(1.2)`
and no error, the parse succeeds, and the line evaluates to `1.2` — a numeric
value silently produced from part of the run. -/
theorem number_scan_silent_truncation :
    scanNumber "1.2.3".data 0 = 5 ∧
    stod "1.2.3".data = some (6/5) ∧
    stod "1.2".data = some (6/5) ∧
    getNextToken ⟨"1.2.3".data, 0⟩ = .ok (⟨TokenType.NUMBER, 6/5⟩, ⟨"1.2.3".data, 5⟩) ∧
    runParse "1.2.3" = .ok (ASTNode.NumberNode (6/5)) := by
  decide

/-- C7: `parse()` does not require the token stream to be exhausted after
`expr()`: `"1+2)"` parses successfully to `BinaryOp(+, Number(1), Number(2))`,
which evaluates to `3`; the trailing `)` is silently ignored. -/
theorem trailing_tokens_ignored :
    runParse "1+2)" = .ok (ASTNode.BinaryOpNode TokenType.PLUS (ASTNode.NumberNode 1)
      (ASTNode.NumberNode 2)) ∧
    evaluate (ASTNode.BinaryOpNode TokenType.PLUS (ASTNode.NumberNode 1)
      (ASTNode.NumberNode 2)) = .ok 3 := by
  decide

/-- C8: The lexer is idempotent at end of input: whenever the cursor is at or
past the input length, `getNextToken` returns `End` and the lexer state is
unchanged — hence every subsequent call returns `End` again without
advancing. -/
theorem getNextToken_end_idempotent (l : Lexer) (h : l.input.length ≤ l.pos) :
    getNextToken l = .ok (⟨TokenType.END, 0⟩, l) := by
  have h0 : l.input.length - l.pos = 0 := Nat.sub_eq_zero_of_le h
  simp only [getNextToken, skipWhitespace, h0, skipWsFuel]
  rw [dif_neg (by omega)]

theorem getNextToken_end_idempotent_witness :
    ("12".data).length ≤ 2 ∧
    getNextToken ⟨"12".data, 2⟩ = .ok (⟨TokenType.END, 0⟩, ⟨"12".data, 2⟩) :=
  ⟨by decide, getNextToken_end_idempotent ⟨"12".data, 2⟩ (by decide)⟩

/-- C9 (the code violates the claim): the read loop never terminates.  No
statement of the loop body assigns `is_running`, so the guard holds forever;
in particular, once the input stream is exhausted, every further iteration
performs an empty read (`getline` fails unchecked, leaving the line empty) and
prints the `ExpectedFactor` error, instead of stopping as the claim states. -/
theorem main_loop_never_terminates :
    (∀ (n : Nat) (s : MainState), (iterateMain n s).is_running = s.is_running) ∧
    mainLoopBody ⟨true, [], []⟩ =
      ⟨true, [], [">>> ", "Error: Expected number or parentheses\n"]⟩ := by
  constructor
  · intro n
    induction n with
    | zero => intro s; rfl
    | succ n ih => intro s; exact ih (mainLoopBody s)
  · decide

/-- C10: Every AST returned by the parser pipeline has only `PLUS`/`MUL`
operator tags on its binary nodes, so the `"Unknown operator"` branch of
`evaluate` is unreachable and `evaluate` succeeds on every parser-produced
tree. -/
theorem parse_ops_closed (fuel : Nat) (input : List Char) (ast : ASTNode)
    (h : parseLine input fuel = .ok ast) :
    wfOps ast = true ∧ ∃ v, evaluate ast = .ok v := by
  have hwf : wfOps ast = true := by
    unfold parseLine at h
    cases hi : Parser.init ⟨input, 0⟩ with
    | error e => rw [hi] at h; simp [bind, Except.bind] at h
    | ok p =>
      rw [hi] at h
      simp only [bind, Except.bind] at h
      unfold Parser.parse at h
      cases hs : parseStep fuel .expr p with
      | error e => rw [hs] at h; simp [bind, Except.bind] at h
      | ok v =>
        rw [hs] at h
        simp only [bind, Except.bind] at h
        cases h
        exact parseStep_wfOps fuel .expr p v hs rfl
  exact ⟨hwf, evaluate_ok_of_wfOps ast hwf⟩

theorem parse_ops_closed_witness :
    parseLine "1+2".data 32 = .ok (ASTNode.BinaryOpNode TokenType.PLUS (ASTNode.NumberNode 1)
      (ASTNode.NumberNode 2)) ∧
    (wfOps (ASTNode.BinaryOpNode TokenType.PLUS (ASTNode.NumberNode 1)
      (ASTNode.NumberNode 2)) = true ∧
     ∃ v, evaluate (ASTNode.BinaryOpNode TokenType.PLUS (ASTNode.NumberNode 1)
      (ASTNode.NumberNode 2)) = .ok v) :=
  ⟨by decide, parse_ops_closed 32 "1+2".data _ (by decide)⟩
